import Mathlib

/-!
Verification development for the two-service log pipeline:
an ingest API (src/ingest-api/main.py, endpoint ingest_data) that normalizes a
submission into a payload dictionary and publishes it, and a processor worker
(src/processor-worker/worker.py, endpoint process_pubsub_message) that receives a
pushed delivery, decodes it, and upserts a processed record into a per-tenant
document store keyed by (tenant_id, log_id).

The embedding keeps Python semantics explicit: JSON values are a Lean inductive,
dictionary lookups return Option, Python truthiness is a Bool-valued function,
and unhandled Python exceptions are a distinguished crash outcome that leaves the
store unchanged.
-/

namespace Pipeline

/-- A JSON value, as produced by Python json.loads and consumed by both services.
Python dictionaries have unique keys, so object field lists coming from decoded
JSON never repeat a key; lookups use first-match semantics consistently. -/
inductive Json where
  | null
  | bool (b : Bool)
  | num (n : Int)
  | str (s : String)
  | arr (xs : List Json)
  | obj (fields : List (String × Json))

/-- First-match lookup in an association list, mirroring Python dict indexing and
dict.get (which return the stored value even when that value is None). -/
def getKey {α : Type} : List (String × α) → String → Option α
  | [], _ => none
  | (k, v) :: rest, key => if k = key then some v else getKey rest key

/-- Python truthiness of a JSON value: None, False, 0, empty string, empty list
and empty dict are falsy; everything else is truthy. -/
def Json.truthy : Json → Bool
  | .null => false
  | .bool b => b
  | .num n => n != 0
  | .str s => s != ""
  | .arr xs => !xs.isEmpty
  | .obj fs => !fs.isEmpty

/-- Python truthiness of an optional value, where absence (Python None) is falsy. -/
def truthyOpt : Option Json → Bool
  | none => false
  | some j => j.truthy

/-- Python len applied to a JSON value: defined for strings, lists and dicts;
anything else raises TypeError (modelled as none). -/
def pyLen : Json → Option Nat
  | .str s => some s.length
  | .arr xs => some xs.length
  | .obj fs => some fs.length
  | _ => none

/-- The uppercase transform of a string, character by character (the model of
Python str.upper on the ASCII range). -/
def pyStrUpper (s : String) : String := ⟨s.data.map Char.toUpper⟩

/-- Python str.upper applied to a JSON value: defined for strings; anything else
raises AttributeError (modelled as none). -/
def pyUpper : Json → Option String
  | .str s => some (pyStrUpper s)
  | _ => none

/-- Whether pat occurs as a contiguous run at some position of hay. -/
def strContainsAux (pat : List Char) : List Char → Bool
  | [] => pat.isEmpty
  | c :: rest => List.isPrefixOf pat (c :: rest) || strContainsAux pat rest

/-- Substring containment, mirroring the Python expression pat in s used for the
content-type dispatch in ingest_data and for sentinel detection. -/
def strContains (s pat : String) : Bool := strContainsAux pat.data s.data

/-- A value stored in one field of a processed-log document: either a JSON value,
or the firestore SERVER_TIMESTAMP sentinel the worker passes for processed_at.
The sentinel is the value the worker writes; its materialization into a concrete
time is the external document store, out of scope. -/
inductive FieldValue where
  | jsonVal (j : Json)
  | serverTimestamp

/-- A stored document: the field dictionary passed to doc_ref.set. -/
abbrev Doc := List (String × FieldValue)

/-- The document store. The worker writes at path
tenants/(tenant_id)/processed_logs/(log_id), so a document key is the pair
(tenant_id, log_id); the store is the collection of documents by key. -/
abbrev Store := List ((String × String) × Doc)

/-- doc_ref.set at a key: an upsert with overwrite semantics — any existing
document at the key is replaced, never appended to. -/
def Store.set (s : Store) (k : String × String) (d : Doc) : Store :=
  (k, d) :: s.filter (fun p => decide (p.1 ≠ k))

/-- The document currently stored at a key, if any. -/
def Store.lookupKey (s : Store) (k : String × String) : Option Doc :=
  match s.find? (fun p => decide (p.1 = k)) with
  | some p => some p.2
  | none => none

/-- How many records the store holds at a key. -/
def Store.countKey (s : Store) (k : String × String) : Nat :=
  (s.filter (fun p => decide (p.1 = k))).length

/-- The records living under the namespace of one tenant
(tenants/(t)/processed_logs/...). -/
def tenantDocs (s : Store) (t : String) : Store :=
  s.filter (fun p => decide (p.1.1 = t))

/-- The data entry of a pushed message, as seen by the worker after the stdlib
decode chain base64.b64decode then utf-8 decode then json.loads. The codec is
Python standard library, external to this repository, so a data value is
modelled by its decode outcome: encodes p stands for a string that is the base64
of the JSON serialization of payload p (the decode chain yields p), and
malformed e stands for any data value on which the decode chain raises with
message e (invalid base64, invalid utf-8, invalid JSON, or a non-string value). -/
inductive PubsubData where
  | encodes (payload : Json)
  | malformed (e : String)

/-- The value found at the message key of the push envelope. withData d is a
Python dict that contains the key data (so the isinstance-dict-and-data check of
the worker succeeds, and such a dict is always truthy); other j is any other
JSON value, on which that check fails. -/
inductive PushMessage where
  | withData (d : PubsubData)
  | other (j : Json)

/-- Python truthiness of the message value: a dict containing data is non-empty
hence truthy; any other value has its ordinary JSON truthiness. -/
def PushMessage.truthy : PushMessage → Bool
  | .withData _ => true
  | .other j => j.truthy

/-- The HTTP outcome of one worker invocation. badRequest is a raised
HTTPException with status 400 (delivery not acknowledged, eligible for
redelivery only per broker policy on 4xx); errorAck is the HTTP 200 body with
status error returned from the except branch (the delivery is acknowledged and
drained); successAck is the HTTP 200 body with status success. -/
inductive WorkerResponse where
  | badRequest (detail : String)
  | errorAck (e : String)
  | successAck

/-- The full outcome of one worker invocation: an HTTP response together with the
store contents afterwards, or an unhandled Python exception (the request dies
with a 500 and the store is unchanged). -/
inductive WorkerResult where
  | response (r : WorkerResponse) (store : Store)
  | crash (e : String) (store : Store)

/-- The store contents after a worker invocation (a crash leaves it unchanged). -/
def WorkerResult.outStore : WorkerResult → Store
  | .response _ s => s
  | .crash _ s => s

/-- Steps 3 and 4 of process_pubsub_message in src/processor-worker/worker.py,
applied to a successfully decoded payload: read text with default empty string,
sleep proportionally to len(text) (real time, no effect on state), then, when
the db client is present and tenant_id and log_id are both truthy, upsert the
processed document at tenants/(tenant_id)/processed_logs/(log_id); otherwise
skip the write. Returns status success in both cases. Python exceptions
(payload without get, len or upper on unsupported values, non-string document
path segments) are crashes. -/
def handle_payload (db : Bool) (payload : Json) (store : Store) : WorkerResult :=
  match payload with
  | .obj fields =>
    let text_content := (getKey fields "text").getD (.str "")
    match pyLen text_content with
    | none => .crash "TypeError: len" store
    | some n =>
      let tenant_id := getKey fields "tenant_id"
      let log_id := getKey fields "log_id"
      if db && truthyOpt tenant_id && truthyOpt log_id then
        match tenant_id, log_id with
        | some (.str t), some (.str l) =>
          match pyUpper text_content with
          | none => .crash "AttributeError: upper" store
          | some up =>
            .response .successAck (Store.set store (t, l)
              [("source", .jsonVal ((getKey fields "source").getD .null)),
               ("original_text", .jsonVal text_content),
               ("modified_data", .jsonVal (.str up)),
               ("processed_at", .serverTimestamp),
               ("char_count", .jsonVal (.num (Int.ofNat n)))])
        | _, _ => .crash "ValueError: document path segment must be a string" store
      else
        .response .successAck store
  | _ => .crash "AttributeError: payload has no attribute get" store

/-- process_pubsub_message in src/processor-worker/worker.py. The envelope
argument is the view of the request JSON at its message key: none when the key
is absent. A falsy message value (absent, None, empty dict, empty string, 0,
False, empty list) raises HTTPException 400. A truthy message that is not a
dict containing data raises HTTPException 400 inside the try block, which the
except Exception branch catches, so the caller sees an HTTP 200 error body
(the string is the str() of the caught HTTPException). A dict containing data
has its data entry decoded; decode failure is caught the same way; a decoded
payload proceeds to handle_payload. -/
def process_pubsub_message (db : Bool) (envelope : Option PushMessage)
    (store : Store) : WorkerResult :=
  match envelope with
  | none => .response (.badRequest "Bad Request: no message field") store
  | some m =>
    if m.truthy = false then
      .response (.badRequest "Bad Request: no message field") store
    else
      match m with
      | .other _ => .response (.errorAck "400: Invalid message format") store
      | .withData (.malformed e) => .response (.errorAck e) store
      | .withData (.encodes payload) => handle_payload db payload store

/-- Delivery of a successfully transported payload: the worker invoked on an
envelope whose message is a dict whose data entry decodes to the payload. -/
def deliver (db : Bool) (payload : Json) (store : Store) : WorkerResult :=
  process_pubsub_message db (some (.withData (.encodes payload))) store

/-- The outcome of the ingest endpoint: accepted carries the normalized
final_payload that is serialized and published (the HTTP response is 202 with
status accepted regardless of publish success); badRequest is HTTPException 400;
unsupported is HTTPException 415. -/
inductive IngestResult where
  | accepted (payload : Json)
  | badRequest (detail : String)
  | unsupported (detail : String)

/-- ingest_data in src/ingest-api/main.py. jsonBody is the outcome of
request.json() (none when parsing raises); textBody is the utf-8 decoded raw
body; x_tenant_id is the X-Tenant-ID header. On the JSON branch every failure
inside the try block — unparseable body, body that is not a dict (membership or
indexing raises TypeError), missing tenant_id or text key (the inner
HTTPException is itself caught by except Exception) — surfaces as 400 with
detail Invalid JSON. A present tenant_id or text key is accepted whatever its
value, including an empty string; a missing log_id defaults to the literal
generated-id. The plain-text branch requires a truthy header (absent or empty
is rejected) and uses the literal generated-log-id. -/
def ingest_data (content_type : String) (jsonBody : Option Json)
    (textBody : String) (x_tenant_id : Option String) : IngestResult :=
  if strContains content_type "application/json" then
    match jsonBody with
    | some (.obj body) =>
      match getKey body "tenant_id", getKey body "text" with
      | some tid, some txt =>
        .accepted (.obj [("tenant_id", tid),
                         ("log_id", (getKey body "log_id").getD (.str "generated-id")),
                         ("text", txt),
                         ("source", .str "json_upload")])
      | _, _ => .badRequest "Invalid JSON"
    | _ => .badRequest "Invalid JSON"
  else if strContains content_type "text/plain" then
    match x_tenant_id with
    | some h =>
      if h = "" then .badRequest "X-Tenant-ID header required for text"
      else
        .accepted (.obj [("tenant_id", .str h),
                         ("log_id", .str "generated-log-id"),
                         ("text", .str textBody),
                         ("source", .str "text_upload")])
    | none => .badRequest "X-Tenant-ID header required for text"
  else
    .unsupported "Unsupported Content-Type"

/-- The tenant identifier a payload carries, when it is usable as a storage path
segment: the value at key tenant_id when the payload is a dict and that value is
a string. -/
def payloadTenant : Json → Option String
  | .obj fs =>
    match getKey fs "tenant_id" with
    | some (.str t) => some t
    | _ => none
  | _ => none

/-- The tenant identifier carried by a pushed envelope whose data decodes to a
payload; none for malformed or absent messages. -/
def envelopeTenant : Option PushMessage → Option String
  | some (.withData (.encodes p)) => payloadTenant p
  | _ => none

/-- The string at a key of a payload dict, with empty-string fallback, used by
the fault-injection model to inspect the record. -/
def strField (fields : List (String × Json)) (k : String) : String :=
  match getKey fields k with
  | some (.str s) => s
  | _ => ""

/-- The text of a record, as inspected by the fault-injection checkpoint. -/
def payloadText : Json → String
  | .obj fs => strField fs "text"
  | _ => ""

/-- The identity of a record for crash-once bookkeeping: its idempotency key
(tenant_id, log_id). -/
def recordKey : Json → String × String
  | .obj fs => (strField fs "tenant_id", strField fs "log_id")
  | _ => ("", "")

/-- Modelled from the spec: the fault-injection sentinel marker that can be
embedded in a record text for retry-path testing (spec section 4.3 transition 3
and section 7, FaultInjectionError). The marker string itself is not named by the
spec or by the files under src/; any fixed non-empty token plays the role. -/
def FAULT_SENTINEL : String := "CRASH_ME"

/-- Modelled from the spec: the persisted local markers (spec section 9,
fault-injection via filesystem marker) recording which records have already
crashed once. -/
structure FaultMarkers where
  seen : List (String × String)

/-- Modelled from the spec: the crash-recovery checkpoint of the Delivery
Handler (spec section 4.3 transition 3), which is absent from the files under
src/. Before the simulated processing delay, if the record text contains the
fault-injection sentinel and no local marker is persisted for this record, the
handler persists a marker and raises a fatal FaultInjectionError (the delivery
dies unacknowledged, store untouched); otherwise — in particular on redelivery
of the same record, when the marker is found — it proceeds through the ordinary
handler to completion. -/
def process_with_fault (db : Bool) (payload : Json) (fm : FaultMarkers)
    (store : Store) : WorkerResult × FaultMarkers :=
  if strContains (payloadText payload) FAULT_SENTINEL
      && !(fm.seen.contains (recordKey payload)) then
    (.crash "FaultInjectionError" store, ⟨recordKey payload :: fm.seen⟩)
  else
    (handle_payload db payload store, fm)

/-! General lemmas about the store operations. -/

/-- Records surviving the overwrite filter never match the overwritten key. -/
theorem filter_ne_then_eq (s : Store) (k : String × String) :
    (s.filter (fun p => decide (p.1 ≠ k))).filter (fun p => decide (p.1 = k)) = [] := by
  induction s with
  | nil => rfl
  | cons a tl ih => by_cases h : a.1 = k <;> simp [List.filter_cons, h, ih]

/-- The overwrite filter is idempotent. -/
theorem filter_ne_idem (s : Store) (k : String × String) :
    (s.filter (fun p => decide (p.1 ≠ k))).filter (fun p => decide (p.1 ≠ k))
      = s.filter (fun p => decide (p.1 ≠ k)) := by
  induction s with
  | nil => rfl
  | cons a tl ih => by_cases h : a.1 = k <;> simp [List.filter_cons, h, ih]

/-- Upserting the same document at the same key twice equals doing it once. -/
theorem store_set_idem (s : Store) (k : String × String) (d : Doc) :
    Store.set (Store.set s k d) k d = Store.set s k d := by
  simp [Store.set, List.filter_cons, filter_ne_idem]

/-- After an upsert, the key holds exactly one record. -/
theorem store_countKey_set (s : Store) (k : String × String) (d : Doc) :
    (Store.set s k d).countKey k = 1 := by
  simp [Store.set, Store.countKey, List.filter_cons, filter_ne_then_eq]

/-- After an upsert, lookup at the key returns the upserted document. -/
theorem store_lookupKey_set (s : Store) (k : String × String) (d : Doc) :
    (Store.set s k d).lookupKey k = some d := by
  simp [Store.set, Store.lookupKey, List.find?]

/-- An upsert at a key of one tenant leaves every other tenant namespace
untouched. -/
theorem tenantDocs_set_of_ne (s : Store) (k : String × String) (d : Doc)
    (B : String) (h : k.1 ≠ B) :
    tenantDocs (Store.set s k d) B = tenantDocs s B := by
  have aux : s.filter (fun p => decide (p.1.1 = B) && !decide (p.1 = k))
      = s.filter (fun p => decide (p.1.1 = B)) := by
    induction s with
    | nil => rfl
    | cons a tl ih =>
      by_cases hB : a.1.1 = B
      · have hk : ¬(a.1 = k) := fun he => h (by rw [← he]; exact hB)
        simp [List.filter_cons, hB, hk, ih]
      · simp [List.filter_cons, hB, ih]
  simp [Store.set, tenantDocs, List.filter_cons, h, aux]

/-- A payload determines the worker branch independently of the store state:
the handler either crashes (leaving any store unchanged), acknowledges without
writing, or upserts one fixed document at one fixed key of its own tenant. -/
theorem handle_payload_outcome (db : Bool) (p : Json) :
    (∃ e, ∀ st, handle_payload db p st = .crash e st)
    ∨ (∀ st, handle_payload db p st = .response .successAck st)
    ∨ (∃ t l d, payloadTenant p = some t
        ∧ ∀ st, handle_payload db p st
            = .response .successAck (Store.set st (t, l) d)) := by
  cases p with
  | null => exact Or.inl ⟨"AttributeError: payload has no attribute get", fun st => rfl⟩
  | bool b => exact Or.inl ⟨"AttributeError: payload has no attribute get", fun st => rfl⟩
  | num n => exact Or.inl ⟨"AttributeError: payload has no attribute get", fun st => rfl⟩
  | str s => exact Or.inl ⟨"AttributeError: payload has no attribute get", fun st => rfl⟩
  | arr xs => exact Or.inl ⟨"AttributeError: payload has no attribute get", fun st => rfl⟩
  | obj fields =>
    rcases hL : pyLen ((getKey fields "text").getD (Json.str "")) with _ | n
    · exact Or.inl ⟨"TypeError: len", fun st => by simp [handle_payload, hL]⟩
    · by_cases hC : (db && truthyOpt (getKey fields "tenant_id")
          && truthyOpt (getKey fields "log_id")) = true
      · have hC2 := hC
        simp only [Bool.and_eq_true] at hC2
        obtain ⟨⟨hdb, htt⟩, hll⟩ := hC2
        rcases hT : getKey fields "tenant_id" with _ | tj
        · rw [hT] at htt
          exact absurd htt (by simp [truthyOpt])
        · rcases hLog : getKey fields "log_id" with _ | lj
          · rw [hLog] at hll
            exact absurd hll (by simp [truthyOpt])
          · have hC3 : (db && truthyOpt (some tj) && truthyOpt (some lj)) = true := by
              rw [← hT, ← hLog]; exact hC
            cases tj with
            | str t =>
              cases lj with
              | str l =>
                rcases hU : pyUpper ((getKey fields "text").getD (Json.str ""))
                    with _ | up
                · exact Or.inl ⟨"AttributeError: upper", fun st => by
                    simp [handle_payload, hL, hT, hLog, hC3, hU]⟩
                · refine Or.inr (Or.inr ⟨t, l,
                    [("source", .jsonVal ((getKey fields "source").getD .null)),
                     ("original_text",
                       .jsonVal ((getKey fields "text").getD (.str ""))),
                     ("modified_data", .jsonVal (.str up)),
                     ("processed_at", .serverTimestamp),
                     ("char_count", .jsonVal (.num (Int.ofNat n)))],
                    by simp [payloadTenant, hT], fun st => ?_⟩)
                  simp [handle_payload, hL, hT, hLog, hC3, hU]
              | null => exact Or.inl ⟨"ValueError: document path segment must be a string", fun st => by
                  simp [handle_payload, hL, hT, hLog, hC3]⟩
              | bool b => exact Or.inl ⟨"ValueError: document path segment must be a string", fun st => by
                  simp [handle_payload, hL, hT, hLog, hC3]⟩
              | num m => exact Or.inl ⟨"ValueError: document path segment must be a string", fun st => by
                  simp [handle_payload, hL, hT, hLog, hC3]⟩
              | arr xs => exact Or.inl ⟨"ValueError: document path segment must be a string", fun st => by
                  simp [handle_payload, hL, hT, hLog, hC3]⟩
              | obj fs => exact Or.inl ⟨"ValueError: document path segment must be a string", fun st => by
                  simp [handle_payload, hL, hT, hLog, hC3]⟩
            | null => exact Or.inl ⟨"ValueError: document path segment must be a string", fun st => by
                simp [handle_payload, hL, hT, hLog, hC3]⟩
            | bool b => exact Or.inl ⟨"ValueError: document path segment must be a string", fun st => by
                simp [handle_payload, hL, hT, hLog, hC3]⟩
            | num m => exact Or.inl ⟨"ValueError: document path segment must be a string", fun st => by
                simp [handle_payload, hL, hT, hLog, hC3]⟩
            | arr xs => exact Or.inl ⟨"ValueError: document path segment must be a string", fun st => by
                simp [handle_payload, hL, hT, hLog, hC3]⟩
            | obj fs => exact Or.inl ⟨"ValueError: document path segment must be a string", fun st => by
                simp [handle_payload, hL, hT, hLog, hC3]⟩
      · refine Or.inr (Or.inl fun st => ?_)
        simp only [handle_payload, hL]
        rw [if_neg hC]

/-! Claim theorems. -/

/-- C6: a pushed delivery whose envelope lacks the message field is rejected
with HTTP 400 (a raised HTTPException) before any decode is attempted, and the
store is never invoked for that delivery — the store state is returned
unchanged. -/
theorem c6_missing_message_rejected_400 (db : Bool) (st : Store) :
    process_pubsub_message db none st
      = .response (.badRequest "Bad Request: no message field") st := rfl

/-- C7: a pushed delivery whose message data fails to decode (invalid base64,
invalid utf-8 or invalid JSON) is drained: the worker logs the error and returns
the HTTP 200 error body — acknowledging the delivery instead of allowing
retry — and the store is not written. -/
theorem c7_decode_failure_acked_no_write (db : Bool) (st : Store) (e : String) :
    process_pubsub_message db (some (.withData (.malformed e))) st
      = .response (.errorAck e) st := rfl

/-- C10, counterexample: the claim says the 400 rejection applies only when the
message field is absent and that a present message without a data key is
acknowledged with an HTTP 200 error body. But a present message whose value is
an empty dict (no data key, falsy) hits the same 400 branch as an absent
field. -/
theorem c10_counterexample :
    process_pubsub_message true (some (.other (.obj []))) []
      = .response (.badRequest "Bad Request: no message field") [] := rfl

/-- C10, amended: a pushed delivery whose message field is present with a truthy
value that is not a dict containing a data key is acknowledged with the HTTP 200
error body (the caught HTTPException), and the store is never invoked; a
present-but-falsy message value (empty dict, empty string, null, 0, false,
empty list) is instead rejected with 400 exactly like an absent field. -/
theorem c10_amended_truthy_message_error_ack (db : Bool) (st : Store) (j : Json)
    (h : j.truthy = true) :
    process_pubsub_message db (some (.other j)) st
      = .response (.errorAck "400: Invalid message format") st := by
  simp [process_pubsub_message, PushMessage.truthy, h]

/-- C10, witness: the amended theorem applied to a truthy non-data message. -/
theorem c10_witness :
    process_pubsub_message true (some (.other (.obj [("attributes", .null)]))) []
      = .response (.errorAck "400: Invalid message format") [] :=
  c10_amended_truthy_message_error_ack true [] (.obj [("attributes", .null)]) rfl

/-- C4, counterexample: the claim says a delivered record with empty tenant_id
fails with MissingKeyError and is not acknowledged. But the worker skips the
store write entirely (the guard treats the empty identifier like an absent db
client) and still returns the success acknowledgement; no error of any kind is
raised. -/
theorem c4_counterexample :
    deliver true (.obj [("tenant_id", .str ""), ("log_id", .str "l1"),
      ("text", .str "hi")]) []
      = .response .successAck [] := rfl

/-- C4, amended: for every delivered record in which tenant_id or log_id is
empty (falsy), the worker performs no store write and nevertheless returns the
success response, acknowledging the delivery, so the message is neither
redelivered nor routed anywhere else; no MissingKeyError exists in the code. -/
theorem c4_amended_skip_write_and_ack (db : Bool) (fields : List (String × Json))
    (st : Store) (n : Nat)
    (hlen : pyLen ((getKey fields "text").getD (.str "")) = some n)
    (hkey : truthyOpt (getKey fields "tenant_id") = false
          ∨ truthyOpt (getKey fields "log_id") = false) :
    deliver db (.obj fields) st = .response .successAck st := by
  rcases hkey with h | h <;>
    simp [deliver, process_pubsub_message, PushMessage.truthy, handle_payload, hlen, h]

/-- C4, witness: the amended theorem applied to a record with empty tenant_id. -/
theorem c4_witness :
    deliver true (.obj [("tenant_id", .str ""), ("log_id", .str "x"),
      ("text", .str "hey")]) []
      = .response .successAck [] :=
  c4_amended_skip_write_and_ack true
    [("tenant_id", .str ""), ("log_id", .str "x"), ("text", .str "hey")] [] 3 rfl
    (Or.inl rfl)

/-- C9, counterexample: the claim says every normalized record has a non-empty
tenant_id. But the JSON branch only checks that the tenant_id key is present,
so a submission with an empty-string tenant_id passes validation and yields a
normalized record whose tenant_id is empty. -/
theorem c9_counterexample :
    ingest_data "application/json"
      (some (.obj [("tenant_id", .str ""), ("text", .str "x")])) "" none
      = .accepted (.obj [("tenant_id", .str ""), ("log_id", .str "generated-id"),
                          ("text", .str "x"), ("source", .str "json_upload")]) := rfl

/-- C9, amended: only the plain-text branch guarantees a non-empty tenant_id:
every accepted plain-text submission carries the header value, which validation
requires to be present and non-empty. The JSON branch checks only key presence,
so an empty (or even non-string) tenant_id can reach the normalized record. -/
theorem c9_amended_text_path_nonempty_tenant (tb : String) (hdr : Option String)
    (p : Json) (h : ingest_data "text/plain" none tb hdr = .accepted p) :
    ∃ t, t ≠ "" ∧ hdr = some t ∧ payloadTenant p = some t := by
  match hdr with
  | none =>
    exact IngestResult.noConfusion
      (show IngestResult.badRequest "X-Tenant-ID header required for text"
          = IngestResult.accepted p from h)
  | some t =>
    have h2 : (if t = ""
        then IngestResult.badRequest "X-Tenant-ID header required for text"
        else IngestResult.accepted (.obj [("tenant_id", .str t),
            ("log_id", .str "generated-log-id"), ("text", .str tb),
            ("source", .str "text_upload")])) = .accepted p := h
    by_cases ht : t = ""
    · rw [if_pos ht] at h2
      exact IngestResult.noConfusion h2
    · rw [if_neg ht] at h2
      injection h2 with h3
      exact ⟨t, ht, rfl, by rw [← h3]; rfl⟩

/-- C9, witness: the amended theorem applied to a concrete accepted plain-text
submission. -/
theorem c9_witness :
    ∃ t, t ≠ "" ∧ (some "t2" : Option String) = some t
      ∧ payloadTenant (.obj [("tenant_id", .str "t2"),
          ("log_id", .str "generated-log-id"), ("text", .str "hello"),
          ("source", .str "text_upload")]) = some t :=
  c9_amended_text_path_nonempty_tenant "hello" (some "t2")
    (.obj [("tenant_id", .str "t2"), ("log_id", .str "generated-log-id"),
           ("text", .str "hello"), ("source", .str "text_upload")]) rfl

/-- C8, counterexample: the claim says one and the same constant placeholder is
used for all missing-id submissions on both paths. But the JSON branch uses the
literal generated-id while the plain-text branch uses generated-log-id, so two
missing-id submissions by the same tenant, one per path, land at two different
storage keys (two records, not one). -/
theorem c8_counterexample :
    ingest_data "application/json"
      (some (.obj [("tenant_id", .str "t1"), ("text", .str "a")])) "" none
      = .accepted (.obj [("tenant_id", .str "t1"), ("log_id", .str "generated-id"),
                          ("text", .str "a"), ("source", .str "json_upload")])
    ∧ ingest_data "text/plain" none "b" (some "t1")
      = .accepted (.obj [("tenant_id", .str "t1"),
                          ("log_id", .str "generated-log-id"),
                          ("text", .str "b"), ("source", .str "text_upload")])
    ∧ ("generated-id" : String) ≠ "generated-log-id"
    ∧ ((deliver true (.obj [("tenant_id", .str "t1"),
          ("log_id", .str "generated-log-id"), ("text", .str "b"),
          ("source", .str "text_upload")])
        (deliver true (.obj [("tenant_id", .str "t1"),
            ("log_id", .str "generated-id"), ("text", .str "a"),
            ("source", .str "json_upload")]) []).outStore).outStore).length = 2 :=
  ⟨rfl, rfl, by decide, rfl⟩

/-- C8, amended: a missing log_id is replaced by a constant placeholder per
submission path — the literal generated-id on the JSON path and the literal
generated-log-id on the plain-text path — so two missing-id submissions within
a tenant share a storage key exactly when they arrive through the same path;
across the two paths the keys differ. -/
theorem c8_amended_per_path_placeholders
    (body : List (String × Json)) (tid txt : Json) (hd tb : String)
    (h1 : getKey body "tenant_id" = some tid) (h2 : getKey body "text" = some txt)
    (h3 : getKey body "log_id" = none) (h4 : hd ≠ "") :
    ingest_data "application/json" (some (.obj body)) "" none
      = .accepted (.obj [("tenant_id", tid), ("log_id", .str "generated-id"),
                          ("text", txt), ("source", .str "json_upload")])
    ∧ ingest_data "text/plain" none tb (some hd)
      = .accepted (.obj [("tenant_id", .str hd),
                          ("log_id", .str "generated-log-id"),
                          ("text", .str tb), ("source", .str "text_upload")]) := by
  constructor
  · show (match getKey body "tenant_id", getKey body "text" with
      | some tid, some txt =>
        IngestResult.accepted (.obj [("tenant_id", tid),
            ("log_id", (getKey body "log_id").getD (.str "generated-id")),
            ("text", txt), ("source", .str "json_upload")])
      | _, _ => IngestResult.badRequest "Invalid JSON") = _
    rw [h1, h2, h3]
    rfl
  · show (if hd = ""
        then IngestResult.badRequest "X-Tenant-ID header required for text"
        else IngestResult.accepted (.obj [("tenant_id", .str hd),
            ("log_id", .str "generated-log-id"), ("text", .str tb),
            ("source", .str "text_upload")])) = _
    rw [if_neg h4]

/-- C8, witness: the amended theorem applied to two concrete missing-id
submissions of the same tenant. -/
theorem c8_witness :
    ingest_data "application/json"
      (some (.obj [("tenant_id", .str "t9"), ("text", .str "z")])) "" none
      = .accepted (.obj [("tenant_id", .str "t9"),
                          ("log_id", .str "generated-id"),
                          ("text", .str "z"), ("source", .str "json_upload")])
    ∧ ingest_data "text/plain" none "w" (some "t9")
      = .accepted (.obj [("tenant_id", .str "t9"),
                          ("log_id", .str "generated-log-id"),
                          ("text", .str "w"), ("source", .str "text_upload")]) :=
  c8_amended_per_path_placeholders
    [("tenant_id", .str "t9"), ("text", .str "z")] (.str "t9") (.str "z") "t9" "w"
    rfl rfl rfl (by decide)

/-- C1, counterexample: the claim says the stored record contains a field named
modified_text holding the uppercase transform. For a valid JSON submission the
stored document has no modified_text field at all — the worker writes the
uppercase transform under the field name modified_data. -/
theorem c1_counterexample :
    ingest_data "application/json"
      (some (.obj [("tenant_id", .str "t1"), ("log_id", .str "l1"),
        ("text", .str "hi")])) "" none
      = .accepted (.obj [("tenant_id", .str "t1"), ("log_id", .str "l1"),
                          ("text", .str "hi"), ("source", .str "json_upload")])
    ∧ deliver true (.obj [("tenant_id", .str "t1"), ("log_id", .str "l1"),
        ("text", .str "hi"), ("source", .str "json_upload")]) []
      = .response .successAck [(("t1", "l1"),
          [("source", .jsonVal (.str "json_upload")),
           ("original_text", .jsonVal (.str "hi")),
           ("modified_data", .jsonVal (.str "HI")),
           ("processed_at", .serverTimestamp),
           ("char_count", .jsonVal (.num 2))])]
    ∧ getKey [("source", FieldValue.jsonVal (.str "json_upload")),
           ("original_text", .jsonVal (.str "hi")),
           ("modified_data", .jsonVal (.str "HI")),
           ("processed_at", .serverTimestamp),
           ("char_count", .jsonVal (.num 2))] "modified_text" = none :=
  ⟨rfl, rfl, rfl⟩

/-- C1, amended: for every valid JSON submission with tenant_id and text present
(tenant_id a non-empty string, and the resulting log_id a non-empty string), the
delivered record is stored with char_count equal to the length of text, and the
uppercase transform of text is stored under the field named modified_data —
not modified_text, which does not occur in the document. -/
theorem c1_amended_char_count_and_modified_data
    (body : List (String × Json)) (t l s : String) (st : Store)
    (ht : getKey body "tenant_id" = some (.str t)) (ht2 : t ≠ "")
    (hs : getKey body "text" = some (.str s))
    (hl : (getKey body "log_id").getD (.str "generated-id") = .str l)
    (hl2 : l ≠ "") :
    ∃ p d, ingest_data "application/json" (some (.obj body)) "" none = .accepted p
      ∧ deliver true p st = .response .successAck (Store.set st (t, l) d)
      ∧ getKey d "char_count" = some (.jsonVal (.num (Int.ofNat s.length)))
      ∧ getKey d "modified_data" = some (.jsonVal (.str (pyStrUpper s)))
      ∧ getKey d "modified_text" = none := by
  refine ⟨.obj [("tenant_id", .str t), ("log_id", .str l), ("text", .str s),
      ("source", .str "json_upload")],
    [("source", .jsonVal (.str "json_upload")),
     ("original_text", .jsonVal (.str s)),
     ("modified_data", .jsonVal (.str (pyStrUpper s))),
     ("processed_at", .serverTimestamp),
     ("char_count", .jsonVal (.num (Int.ofNat s.length)))],
    ?_, ?_, rfl, rfl, rfl⟩
  · show (match getKey body "tenant_id", getKey body "text" with
      | some tid, some txt =>
        IngestResult.accepted (.obj [("tenant_id", tid),
            ("log_id", (getKey body "log_id").getD (.str "generated-id")),
            ("text", txt), ("source", .str "json_upload")])
      | _, _ => IngestResult.badRequest "Invalid JSON") = _
    rw [ht, hs, hl]
  · have g1 : getKey [("tenant_id", Json.str t), ("log_id", Json.str l),
        ("text", Json.str s), ("source", Json.str "json_upload")] "text"
        = some (Json.str s) := rfl
    have g2 : getKey [("tenant_id", Json.str t), ("log_id", Json.str l),
        ("text", Json.str s), ("source", Json.str "json_upload")] "tenant_id"
        = some (Json.str t) := rfl
    have g3 : getKey [("tenant_id", Json.str t), ("log_id", Json.str l),
        ("text", Json.str s), ("source", Json.str "json_upload")] "log_id"
        = some (Json.str l) := rfl
    have g4 : getKey [("tenant_id", Json.str t), ("log_id", Json.str l),
        ("text", Json.str s), ("source", Json.str "json_upload")] "source"
        = some (Json.str "json_upload") := rfl
    simp [deliver, process_pubsub_message, PushMessage.truthy, handle_payload,
      g1, g2, g3, g4, pyLen, pyUpper, truthyOpt, Json.truthy, ht2, hl2]

/-- C1, witness: the amended theorem applied to a concrete submission. -/
theorem c1_witness :
    ∃ p d, ingest_data "application/json"
        (some (.obj [("tenant_id", .str "t3"), ("log_id", .str "l3"),
          ("text", .str "ab")])) "" none = .accepted p
      ∧ deliver true p [] = .response .successAck (Store.set [] ("t3", "l3") d)
      ∧ getKey d "char_count"
          = some (.jsonVal (.num (Int.ofNat ("ab" : String).length)))
      ∧ getKey d "modified_data" = some (.jsonVal (.str (pyStrUpper "ab")))
      ∧ getKey d "modified_text" = none :=
  c1_amended_char_count_and_modified_data
    [("tenant_id", .str "t3"), ("log_id", .str "l3"), ("text", .str "ab")]
    "t3" "l3" "ab" [] rfl (by decide) rfl rfl (by decide)

/-- C2: delivering the same envelope twice is exactly one delivery in effect:
the second invocation returns the same result (hence identical field values)
over the store the first one left, and the store after the first delivery is
either untouched or holds exactly one record at the written key — a pure
overwrite, never an append. -/
theorem c2_idempotent_redelivery (db : Bool) (env : Option PushMessage)
    (st : Store) :
    process_pubsub_message db env (process_pubsub_message db env st).outStore
      = process_pubsub_message db env st
    ∧ ((process_pubsub_message db env st).outStore = st
       ∨ ∃ k d, (process_pubsub_message db env st).outStore = Store.set st k d
          ∧ Store.countKey (Store.set st k d) k = 1
          ∧ Store.lookupKey (Store.set st k d) k = some d) := by
  match env with
  | none => exact ⟨rfl, Or.inl rfl⟩
  | some (.other j) =>
    have hred : ∀ s, process_pubsub_message db (some (.other j)) s
        = .response (if j.truthy then .errorAck "400: Invalid message format"
            else .badRequest "Bad Request: no message field") s := by
      intro s
      by_cases hj : j.truthy <;>
        simp [process_pubsub_message, PushMessage.truthy, hj]
    exact ⟨by simp only [hred, WorkerResult.outStore],
           Or.inl (by simp only [hred, WorkerResult.outStore])⟩
  | some (.withData (.malformed e)) => exact ⟨rfl, Or.inl rfl⟩
  | some (.withData (.encodes p)) =>
    have hred : ∀ s, process_pubsub_message db (some (.withData (.encodes p))) s
        = handle_payload db p s := fun s => rfl
    rcases handle_payload_outcome db p with ⟨e, he⟩ | hs | ⟨t, l, d, hpt, hw⟩
    · exact ⟨by simp only [hred, he, WorkerResult.outStore],
             Or.inl (by simp only [hred, he, WorkerResult.outStore])⟩
    · exact ⟨by simp only [hred, hs, WorkerResult.outStore],
             Or.inl (by simp only [hred, hs, WorkerResult.outStore])⟩
    · constructor
      · simp only [hred, hw, WorkerResult.outStore, store_set_idem]
      · exact Or.inr ⟨(t, l), d,
          by simp only [hred, hw, WorkerResult.outStore],
          store_countKey_set st (t, l) d, store_lookupKey_set st (t, l) d⟩

/-- C5: a delivered record carrying tenant identifier A is only ever written
under the storage namespace of A — the write key is determined by the record's
own tenant_id — and for any other tenant B the contents of B's namespace are
exactly what they were before the delivery. -/
theorem c5_tenant_isolation (db : Bool) (env : Option PushMessage) (st : Store)
    (A B : String) (hA : envelopeTenant env = some A) (hAB : A ≠ B) :
    tenantDocs (process_pubsub_message db env st).outStore B = tenantDocs st B
    ∧ ((process_pubsub_message db env st).outStore = st
       ∨ ∃ l d, (process_pubsub_message db env st).outStore
            = Store.set st (A, l) d) := by
  match env with
  | none => exact Option.noConfusion hA
  | some (.other j) => exact Option.noConfusion hA
  | some (.withData (.malformed e)) => exact Option.noConfusion hA
  | some (.withData (.encodes p)) =>
    have hp : payloadTenant p = some A := hA
    have hred : ∀ s, process_pubsub_message db (some (.withData (.encodes p))) s
        = handle_payload db p s := fun s => rfl
    rcases handle_payload_outcome db p with ⟨e, he⟩ | hs | ⟨t, l, d, hpt, hw⟩
    · exact ⟨by simp only [hred, he, WorkerResult.outStore],
             Or.inl (by simp only [hred, he, WorkerResult.outStore])⟩
    · exact ⟨by simp only [hred, hs, WorkerResult.outStore],
             Or.inl (by simp only [hred, hs, WorkerResult.outStore])⟩
    · rw [hpt] at hp
      have hTA : t = A := Option.some.inj hp
      subst hTA
      constructor
      · simp only [hred, hw, WorkerResult.outStore]
        exact tenantDocs_set_of_ne st (t, l) d B hAB
      · exact Or.inr ⟨l, d, by simp only [hred, hw, WorkerResult.outStore]⟩

/-- C5, witness: the isolation theorem applied to a record of tenant alpha and
the distinct tenant beta. -/
theorem c5_witness :
    tenantDocs (process_pubsub_message true (some (.withData (.encodes
        (.obj [("tenant_id", .str "alpha"), ("log_id", .str "l"),
               ("text", .str "x")])))) []).outStore "beta"
      = tenantDocs [] "beta"
    ∧ ((process_pubsub_message true (some (.withData (.encodes
        (.obj [("tenant_id", .str "alpha"), ("log_id", .str "l"),
               ("text", .str "x")])))) []).outStore = []
       ∨ ∃ l d, (process_pubsub_message true (some (.withData (.encodes
            (.obj [("tenant_id", .str "alpha"), ("log_id", .str "l"),
                   ("text", .str "x")])))) []).outStore
              = Store.set [] ("alpha", l) d) :=
  c5_tenant_isolation true
    (some (.withData (.encodes (.obj [("tenant_id", .str "alpha"),
      ("log_id", .str "l"), ("text", .str "x")])))) [] "alpha" "beta"
    rfl (by decide)

/-- C3 (spec-modelled): a record whose text contains the fault-injection
sentinel crashes with FaultInjectionError exactly once — the first delivery
dies before touching the store — and the immediate redelivery of the same
record finds the persisted marker and proceeds to successful persistence,
leaving exactly one record at the key (no duplicates). -/
theorem c3_fault_crash_once_then_persist
    (fields : List (String × Json)) (t l txt : String) (fm : FaultMarkers)
    (st : Store)
    (ht : getKey fields "tenant_id" = some (.str t)) (ht2 : t ≠ "")
    (hl : getKey fields "log_id" = some (.str l)) (hl2 : l ≠ "")
    (hx : getKey fields "text" = some (.str txt))
    (hm : strContains txt FAULT_SENTINEL = true)
    (hseen : fm.seen.contains (t, l) = false) :
    (process_with_fault true (.obj fields) fm st).1
      = .crash "FaultInjectionError" st
    ∧ ∃ d, (process_with_fault true (.obj fields)
          (process_with_fault true (.obj fields) fm st).2 st).1
        = .response .successAck (Store.set st (t, l) d)
      ∧ Store.countKey (Store.set st (t, l) d) (t, l) = 1 := by
  have hpt : payloadText (.obj fields) = txt := by
    simp [payloadText, strField, hx]
  have hrk : recordKey (.obj fields) = (t, l) := by
    simp [recordKey, strField, ht, hl]
  have hcond : (strContains (payloadText (.obj fields)) FAULT_SENTINEL
      && !(fm.seen.contains (recordKey (.obj fields)))) = true := by
    rw [hpt, hrk, hm, hseen]; rfl
  have h1 : process_with_fault true (.obj fields) fm st
      = (.crash "FaultInjectionError" st, ⟨recordKey (.obj fields) :: fm.seen⟩) := by
    simp only [process_with_fault]
    rw [if_pos hcond]
  have hcond2 : (strContains (payloadText (.obj fields)) FAULT_SENTINEL
      && !(FaultMarkers.mk (recordKey (.obj fields) :: fm.seen)).seen.contains
            (recordKey (.obj fields))) = false := by
    simp
  have hL : pyLen ((getKey fields "text").getD (Json.str ""))
      = some txt.length := by rw [hx]; rfl
  have hU : pyUpper ((getKey fields "text").getD (Json.str ""))
      = some (pyStrUpper txt) := by rw [hx]; rfl
  have hC : (true && truthyOpt (getKey fields "tenant_id")
      && truthyOpt (getKey fields "log_id")) = true := by
    rw [ht, hl]; simp [truthyOpt, Json.truthy, ht2, hl2]
  refine ⟨by rw [h1], ⟨[("source", .jsonVal ((getKey fields "source").getD .null)),
      ("original_text", .jsonVal (.str txt)),
      ("modified_data", .jsonVal (.str (pyStrUpper txt))),
      ("processed_at", .serverTimestamp),
      ("char_count", .jsonVal (.num (Int.ofNat txt.length)))],
    ?_, store_countKey_set st (t, l) _⟩⟩
  rw [h1]
  show (process_with_fault true (.obj fields)
      ⟨recordKey (.obj fields) :: fm.seen⟩ st).1 = _
  simp only [process_with_fault]
  rw [if_neg (by rw [hcond2]; exact Bool.false_ne_true)]
  simp [handle_payload, hL, hC, ht, hl, hx, hU, pyLen, pyUpper, truthyOpt,
    Json.truthy, ht2, hl2]

/-- C3, witness: the fault-injection theorem applied to a concrete marked
record delivered into an empty store with no markers persisted. -/
theorem c3_witness :
    (process_with_fault true (.obj [("tenant_id", .str "t1"),
        ("log_id", .str "l1"), ("text", .str "boom CRASH_ME")]) ⟨[]⟩ []).1
      = .crash "FaultInjectionError" []
    ∧ ∃ d, (process_with_fault true (.obj [("tenant_id", .str "t1"),
          ("log_id", .str "l1"), ("text", .str "boom CRASH_ME")])
          (process_with_fault true (.obj [("tenant_id", .str "t1"),
            ("log_id", .str "l1"), ("text", .str "boom CRASH_ME")]) ⟨[]⟩ []).2 []).1
        = .response .successAck (Store.set [] ("t1", "l1") d)
      ∧ Store.countKey (Store.set [] ("t1", "l1") d) ("t1", "l1") = 1 :=
  c3_fault_crash_once_then_persist
    [("tenant_id", .str "t1"), ("log_id", .str "l1"),
     ("text", .str "boom CRASH_ME")]
    "t1" "l1" "boom CRASH_ME" ⟨[]⟩ []
    rfl (by decide) rfl (by decide) rfl rfl rfl

end Pipeline
